import Mathlib

/-!
Shallow embedding of the FQF agent from fqf/agent.py and fqf/model.py.

The network internals (fqf/network.py), the replay memory (fqf/memory.py)
and the helpers in fqf/utils.py are not among the sources; following the
spec they are external collaborators.  They enter the embedding as abstract
components (fields of `Cfg` below) or, where a claim depends on their exact
behaviour, as definitions modelled from the spec and marked as such.

Scalars are rationals; tensors are functions out of `Fin`-indexed shapes, so
the shape assertions of the source become typing facts.  Randomness
(`np.random.rand`, `action_space.sample`) is modelled by streams indexed by
counters threaded through the agent state.  Optimizer steps
(`utils.update_params`: zero grad, backward, step — not under src/) are
abstract functions from current parameters and the back-propagated loss
value to new parameters, one per optimizer, touching only its own
parameter subset.
-/

/-- Modelled from the spec: `calculate_huber_loss` lives in fqf/utils.py,
which is not under src/.  Spec section 8 item 3 fixes it: for
`|x| <= kappa` it equals `0.5*x^2`, beyond it equals
`kappa*(|x| - 0.5*kappa)`. -/
def huber (kappa u : ℚ) : ℚ :=
  if |u| ≤ kappa then u ^ 2 / 2 else kappa * (|u| - kappa / 2)

/-- First index attaining the maximum of `f`; models `torch.argmax` on a
vector of action values (the tie-break policy is left open by the spec,
section 9; first-index is the documented torch behaviour). -/
def argmaxFin {n : ℕ} (f : Fin n → ℚ) (h : 0 < n) : Fin n :=
  ((List.finRange n).argmax f).getD ⟨0, h⟩

/-- Carrier types of the abstract collaborators: observations, state
embeddings, fraction-proposal-network parameters, quantile-value-network
parameters, DQN-base (encoder) parameters, replay memory, environment
internal state. -/
structure CTypes where
  Obs : Type
  Emb : Type
  F : Type
  P : Type
  D : Type
  Mem : Type
  EnvS : Type

/-- Static configuration: the constructor arguments of `FQFAgent.__init__`
together with the abstract interfaces of the external collaborators
(spec section 6).  `quantile_apply p e tau a` is the quantile value network
with parameters `p` evaluated at embedding `e`, fraction level `tau` and
action `a` (spec 4.2 contract, one level and one batch element at a time).
`fstep`/`qstep` are the two optimizer steps (RMSprop on the fraction net,
Adam on dqn_base + quantile_net), abstractly mapping current parameters and
a back-propagated loss value to updated parameters.  `env_sample`,
`test_env_sample` and `np_rand` are the random streams behind
`env.action_space.sample()`, `test_env.action_space.sample()` and
`np.random.rand()`. -/
structure Cfg (T : CTypes) where
  B : ℕ
  N : ℕ
  A : ℕ
  hA : 0 < A
  dqn_base : T.D → T.Obs → T.Emb
  fraction_net : T.F → T.Emb → (Fin (N + 1) → ℚ) × (Fin N → ℚ) × ℚ
  quantile_apply : T.P → T.Emb → ℚ → Fin A → ℚ
  fstep : T.F → ℚ → T.F
  qstep : T.D × T.P → ℚ → T.D × T.P
  mem_append : T.Mem → T.Obs → Fin A → ℚ → T.Obs → Bool → T.Mem
  mem_sample : T.Mem →
    (Fin B → T.Obs) × (Fin B → Fin A) × (Fin B → ℚ) × (Fin B → T.Obs) × (Fin B → ℚ)
  env_reset : T.EnvS → T.EnvS × T.Obs
  env_step : T.EnvS → Fin A → T.EnvS × T.Obs × ℚ × Bool
  env_sample : ℕ → Fin A
  test_env_reset : T.EnvS → T.EnvS × T.Obs
  test_env_step : T.EnvS → Fin A → T.EnvS × T.Obs × ℚ × Bool
  test_env_sample : ℕ → Fin A
  np_rand : ℕ → ℚ
  ent_coef : ℚ
  kappa : ℚ
  gamma : ℚ
  multi_step : ℕ
  epsilon_train : ℚ
  epsilon_eval : ℚ
  num_steps : ℕ
  update_period : ℕ
  target_update_period : ℕ
  start_steps : ℕ
  eval_interval : ℕ

/-- The four parameter containers of the `FQF` model (model.py):
`dqn_base`, `fraction_net`, online `quantile_net`, `target_net`.
`grad_false` (model.py lines 7-9) permanently disables gradients on the
target container: accordingly no optimizer step is ever applied to `t`
anywhere in the embedding, it changes only by full replacement. -/
structure FQFNets (T : CTypes) where
  d : T.D
  f : T.F
  q : T.P
  t : T.P

/-- model.py `update_target`: `target_net.load_state_dict(quantile_net.state_dict())`,
a hard full replacement of the target parameters by the online
quantile-net parameters. -/
def update_target {T : CTypes} (m : FQFNets T) : FQFNets T :=
  { m with t := m.q }

/-- Index arithmetic of the slice `taus[:, 1:-1]`: interior entry `i` of a
`(N+1)`-vector, namely index `i+1` for `i < N-1`. -/
def interiorIdx {N : ℕ} (i : Fin (N - 1)) : Fin (N + 1) :=
  ⟨i.1 + 1, by have h := i.2; omega⟩

/-- Index arithmetic of the slice `hat_taus[:, 1:]`: entry `i+1` of an
`N`-vector for `i < N-1`. -/
def hatUpperIdx {N : ℕ} (i : Fin (N - 1)) : Fin N :=
  ⟨i.1 + 1, by have h := i.2; omega⟩

/-- Index arithmetic of the slice `hat_taus[:, :-1]`: entry `i` of an
`N`-vector for `i < N-1`. -/
def hatLowerIdx {N : ℕ} (i : Fin (N - 1)) : Fin N :=
  ⟨i.1, by have h := i.2; omega⟩

/-- Application `quantile_net(state_embeddings, levels)` (or `target_net`,
chosen by the parameters `p`): a `[batch, levels, actions]` quantile
tensor, each entry the network evaluated at that batch element's embedding
and that fraction level (spec 4.2 contract `evaluate`). -/
def quantile_net {T : CTypes} (c : Cfg T) {B M : ℕ} (p : T.P)
    (embs : Fin B → T.Emb) (levels : Fin B → Fin M → ℚ) :
    Fin B → Fin M → Fin c.A → ℚ :=
  fun b i a => c.quantile_apply p (embs b) (levels b i) a

/-- model.py `calculate_q` (lines 42-54): quantiles of the proposed
fractions, then the Riemann-sum expectation
`((taus[:, 1:, None] - taus[:, :-1, None]) * quantiles).sum(dim=1)`. -/
def calculate_q {T : CTypes} (c : Cfg T) {B : ℕ} (qp : T.P)
    (embs : Fin B → T.Emb) (taus : Fin B → Fin (c.N + 1) → ℚ)
    (hat_taus : Fin B → Fin c.N → ℚ) : Fin B → Fin c.A → ℚ :=
  fun b a =>
    ∑ i : Fin c.N, (taus b i.succ - taus b i.castSucc) * quantile_net c qp embs hat_taus b i a

/-- model.py `calculate_gradients_of_tau_s` (lines 56-78): the placement
signal `2*Q(tau_i) - Q(hat_tau_i) - Q(hat_tau_{i-1})` per batch element,
interior fraction and action; all three quantile-net evaluations happen
inside `torch.no_grad()`. -/
def calculate_gradients_of_tau_s {T : CTypes} (c : Cfg T) {B : ℕ} (qp : T.P)
    (embs : Fin B → T.Emb) (taus : Fin B → Fin (c.N + 1) → ℚ)
    (hat_taus : Fin B → Fin c.N → ℚ) : Fin B → Fin (c.N - 1) → Fin c.A → ℚ :=
  fun b i a =>
    2 * quantile_net c qp embs (fun b' i' => taus b' (interiorIdx i')) b i a
      - quantile_net c qp embs (fun b' i' => hat_taus b' (hatUpperIdx i')) b i a
      - quantile_net c qp embs (fun b' i' => hat_taus b' (hatLowerIdx i')) b i a

/-- agent.py `calculate_fraction_loss` (lines 202-220):
`(gradient_of_taus * taus[:, 1:-1, None]).mean(dim=0).sum()`.
The `actions` argument is received (source signature) but unused: the
commented-out gather at the sampled actions is dead code. -/
def calculate_fraction_loss {T : CTypes} (c : Cfg T) (qp : T.P)
    (embs : Fin c.B → T.Emb) (taus : Fin c.B → Fin (c.N + 1) → ℚ)
    (hat_taus : Fin c.B → Fin c.N → ℚ) (actions : Fin c.B → Fin c.A) : ℚ :=
  ∑ i : Fin (c.N - 1), ∑ a : Fin c.A,
    (∑ b : Fin c.B,
      calculate_gradients_of_tau_s c qp embs taus hat_taus b i a * taus b (interiorIdx i))
      / (c.B : ℚ)

/-- agent.py lines 226-234: `quantile_net(state_embeddings, hat_taus)`
gathered at the sampled actions, the `(batch, 1, num_taus)` tensor of
current state-action quantiles (dimension 2 of the TD-error tensor). -/
def current_sa_quantiles {T : CTypes} (c : Cfg T) (qp : T.P)
    (embs : Fin c.B → T.Emb) (hat_taus : Fin c.B → Fin c.N → ℚ)
    (actions : Fin c.B → Fin c.A) : Fin c.B → Fin c.N → ℚ :=
  fun b i => quantile_net c qp embs hat_taus b i (actions b)

/-- agent.py line 238: `next_state_embeddings = dqn_base(next_states)`
(online encoder). -/
def nextEmbs {T : CTypes} (c : Cfg T) (dp : T.D)
    (next_states : Fin c.B → T.Obs) : Fin c.B → T.Emb :=
  fun b => c.dqn_base dp (next_states b)

/-- agent.py lines 240-241: fresh fraction proposals
`(next_taus, next_hat_taus, _)` from the online fraction net at the
next-state embeddings. -/
def nextFracs {T : CTypes} (c : Cfg T) (fp : T.F)
    (nembs : Fin c.B → T.Emb) : Fin c.B → (Fin (c.N + 1) → ℚ) × (Fin c.N → ℚ) × ℚ :=
  fun b => c.fraction_net fp (nembs b)

/-- agent.py lines 248-251: `next_actions = argmax(calculate_q(next_state_embeddings,
next_taus, next_hat_taus), dim=1)` with the online quantile net. -/
def next_actions {T : CTypes} (c : Cfg T) (qp : T.P)
    (nembs : Fin c.B → T.Emb)
    (nfr : Fin c.B → (Fin (c.N + 1) → ℚ) × (Fin c.N → ℚ) × ℚ) : Fin c.B → Fin c.A :=
  fun b =>
    argmaxFin
      (fun a => calculate_q c qp nembs (fun b' => (nfr b').1) (fun b' => (nfr b').2.1) b a) c.hA

/-- agent.py lines 244-265: the Bellman target
`rewards + (1 - dones) * gamma_n * next_sa_quantiles`, where
`next_sa_quantiles` gathers `target_net(next_state_embeddings, hat_taus)`
at the selected next actions.  Note that the source passes `hat_taus`
(the fraction levels of the CURRENT sampled states) to the target net
(line 245), not `next_hat_taus`. -/
def target_sa_quantiles {T : CTypes} (c : Cfg T) (nets : FQFNets T)
    (hat_taus : Fin c.B → Fin c.N → ℚ) (rewards : Fin c.B → ℚ)
    (next_states : Fin c.B → T.Obs) (dones : Fin c.B → ℚ) :
    Fin c.B → Fin c.N → ℚ :=
  fun b j =>
    rewards b + (1 - dones b) * c.gamma ^ c.multi_step *
      quantile_net c nets.t (nextEmbs c nets.d next_states) hat_taus b j
        (next_actions c nets.q (nextEmbs c nets.d next_states)
          (nextFracs c nets.f (nextEmbs c nets.d next_states)) b)

/-- Follows the claim's words (C1), for refinement comparison only: the
Bellman target with the target net evaluated at the NEXT state's own
`hat_tau` levels (`next_hat_taus`), everything else as in the source. -/
def target_sa_quantiles_specC1 {T : CTypes} (c : Cfg T) (nets : FQFNets T)
    (rewards : Fin c.B → ℚ) (next_states : Fin c.B → T.Obs)
    (dones : Fin c.B → ℚ) : Fin c.B → Fin c.N → ℚ :=
  fun b j =>
    rewards b + (1 - dones b) * c.gamma ^ c.multi_step *
      quantile_net c nets.t (nextEmbs c nets.d next_states)
        (fun b' => (nextFracs c nets.f (nextEmbs c nets.d next_states) b').2.1) b j
        (next_actions c nets.q (nextEmbs c nets.d next_states)
          (nextFracs c nets.f (nextEmbs c nets.d next_states)) b)

/-- agent.py line 268: `td_errors = target_sa_quantiles - current_sa_quantiles`,
a `[batch, N, N]` tensor whose dimension 1 (index `j`) is the
target-quantile dimension (target shape `(batch, N, 1)`) and whose
dimension 2 (index `i`) is the current-quantile dimension (current shape
`(batch, 1, N)`). -/
def td_errors {B N : ℕ} (target current : Fin B → Fin N → ℚ) :
    Fin B → Fin N → Fin N → ℚ :=
  fun b j i => target b j - current b i

/-- agent.py lines 277-279: the aggregation
`(abs(hat_taus[..., None] - (td_errors < 0).float()) * huber_loss / kappa).sum(dim=-1).mean()`.
`hat_taus[..., None]` broadcasts `hat_taus b j` along dimension 2, i.e. the
weight is indexed by the TARGET-quantile dimension `j`; `sum(dim=-1)` sums
the CURRENT-quantile dimension `i`; the final `mean` averages over the
batch and the target-quantile dimension. -/
def quantile_huber_agg {T : CTypes} (c : Cfg T)
    (hat_taus : Fin c.B → Fin c.N → ℚ)
    (td : Fin c.B → Fin c.N → Fin c.N → ℚ) : ℚ :=
  (∑ b : Fin c.B, ∑ j : Fin c.N, ∑ i : Fin c.N,
      |hat_taus b j - (if td b j i < 0 then 1 else 0)| * huber c.kappa (td b j i) / c.kappa)
    / ((c.B : ℚ) * (c.N : ℚ))

/-- Follows the claim's words (C2), for refinement comparison only: weight
each entry by `|hat_tau_i - 1{td < 0}|` with `hat_tau_i` the fraction level
of the corresponding CURRENT quantile (dimension 2 index `i`), divide by
kappa, sum over the target-quantile dimension `j`, and average over the
current-quantile dimension and the batch. -/
def quantile_huber_agg_specC2 {T : CTypes} (c : Cfg T)
    (hat_taus : Fin c.B → Fin c.N → ℚ)
    (td : Fin c.B → Fin c.N → Fin c.N → ℚ) : ℚ :=
  (∑ b : Fin c.B, ∑ i : Fin c.N, ∑ j : Fin c.N,
      |hat_taus b i - (if td b j i < 0 then 1 else 0)| * huber c.kappa (td b j i) / c.kappa)
    / ((c.B : ℚ) * (c.N : ℚ))

/-- agent.py `calculate_quantile_loss` (lines 222-281), assembled from the
pieces above in source order.  The `taus` argument is received (source
signature) but unused by the body. -/
def calculate_quantile_loss {T : CTypes} (c : Cfg T) (nets : FQFNets T)
    (embs : Fin c.B → T.Emb) (taus : Fin c.B → Fin (c.N + 1) → ℚ)
    (hat_taus : Fin c.B → Fin c.N → ℚ) (actions : Fin c.B → Fin c.A)
    (rewards : Fin c.B → ℚ) (next_states : Fin c.B → T.Obs)
    (dones : Fin c.B → ℚ) : ℚ :=
  quantile_huber_agg c hat_taus
    (td_errors (target_sa_quantiles c nets hat_taus rewards next_states dones)
      (current_sa_quantiles c nets.q embs hat_taus actions))

/-- Forward-mode sensitivity scalar modelling autograd: `val` is the tensor
value, `grad` its derivative along one chosen parameter direction.
`torch.no_grad()` evaluation is `Dual.detach`, which severs the derivative. -/
structure Dual where
  val : ℚ
  grad : ℚ

/-- Autograd addition. -/
def Dual.add (x y : Dual) : Dual := ⟨x.val + y.val, x.grad + y.grad⟩

/-- Autograd subtraction. -/
def Dual.sub (x y : Dual) : Dual := ⟨x.val - y.val, x.grad - y.grad⟩

/-- Autograd product rule. -/
def Dual.mul (x y : Dual) : Dual := ⟨x.val * y.val, x.grad * y.val + x.val * y.grad⟩

/-- Autograd scaling by a constant. -/
def Dual.scale (r : ℚ) (x : Dual) : Dual := ⟨r * x.val, r * x.grad⟩

/-- Evaluation under `torch.no_grad()`: the value survives, the derivative
is severed. -/
def Dual.detach (x : Dual) : Dual := ⟨x.val, 0⟩

/-- Componentwise sum of sensitivity scalars (autograd sum of a tensor). -/
def dsum {n : ℕ} (f : Fin n → Dual) : Dual :=
  ⟨∑ i, (f i).val, ∑ i, (f i).grad⟩

/-- model.py `calculate_gradients_of_tau_s` at the autograd level: the same
computation as `calculate_gradients_of_tau_s`, with the three quantile-net
evaluations wrapped in `Dual.detach` because the source performs them under
`with torch.no_grad():`.  `qnd` is the quantile value network as a
sensitivity-carrying function (its output `grad` is its derivative along
the chosen parameter direction, plus whatever flows in through the level
input). -/
def calculate_gradients_of_tau_s_ad {T : CTypes} (c : Cfg T) {B : ℕ}
    (qnd : T.Emb → Dual → Fin c.A → Dual) (embs : Fin B → T.Emb)
    (taus_d : Fin B → Fin (c.N + 1) → Dual) (hat_d : Fin B → Fin c.N → Dual) :
    Fin B → Fin (c.N - 1) → Fin c.A → Dual :=
  fun b i a =>
    Dual.sub
      (Dual.sub (Dual.scale 2 (Dual.detach (qnd (embs b) (taus_d b (interiorIdx i)) a)))
        (Dual.detach (qnd (embs b) (hat_d b (hatUpperIdx i)) a)))
      (Dual.detach (qnd (embs b) (hat_d b (hatLowerIdx i)) a))

/-- agent.py `calculate_fraction_loss` at the autograd level:
`(gradient_of_taus * taus[:, 1:-1, None]).mean(dim=0).sum()` over
sensitivity scalars.  `actions` is again received and unused. -/
def calculate_fraction_loss_ad {T : CTypes} (c : Cfg T)
    (qnd : T.Emb → Dual → Fin c.A → Dual) (embs : Fin c.B → T.Emb)
    (taus_d : Fin c.B → Fin (c.N + 1) → Dual) (hat_d : Fin c.B → Fin c.N → Dual)
    (actions : Fin c.B → Fin c.A) : Dual :=
  dsum (fun i : Fin (c.N - 1) => dsum (fun a : Fin c.A =>
    Dual.scale (1 / (c.B : ℚ))
      (dsum (fun b : Fin c.B =>
        Dual.mul (calculate_gradients_of_tau_s_ad c qnd embs taus_d hat_d b i a)
          (taus_d b (interiorIdx i))))))

/-- Mutable state of `FQFAgent`: the counters `steps`, `learning_steps`,
`episodes`, the four parameter containers, the replay memory, both
environment states, the current training observation, and the positions in
the three random streams. -/
structure AgentState (T : CTypes) where
  steps : ℕ
  learning_steps : ℕ
  episodes : ℕ
  nets : FQFNets T
  mem : T.Mem
  envS : T.EnvS
  testEnvS : T.EnvS
  obs : T.Obs
  npIdx : ℕ
  envIdx : ℕ
  testIdx : ℕ

/-- agent.py `is_update` (lines 91-93):
`steps % update_period == 0 and steps >= start_steps`. -/
def is_update {T : CTypes} (c : Cfg T) (s : AgentState T) : Bool :=
  decide (s.steps % c.update_period = 0) && decide (c.start_steps ≤ s.steps)

/-- agent.py `explore` (lines 95-98): one draw from
`self.env.action_space.sample()` — the TRAINING environment's action
space, whichever environment is being stepped. -/
def explore {T : CTypes} (c : Cfg T) (s : AgentState T) : Fin c.A × AgentState T :=
  (c.env_sample s.envIdx, { s with envIdx := s.envIdx + 1 })

/-- agent.py `exploit` (lines 100-112): embed the observation (the
byte-to-float preprocessing is folded into `dqn_base`), propose fractions,
and take the argmax of `calculate_q` on the singleton batch, all without
gradient tracking. -/
def exploit {T : CTypes} (c : Cfg T) (s : AgentState T) (obs : T.Obs) : Fin c.A :=
  argmaxFin
    (fun a =>
      calculate_q c s.nets.q (fun _ : Fin 1 => c.dqn_base s.nets.d obs)
        (fun _ => (c.fraction_net s.nets.f (c.dqn_base s.nets.d obs)).1)
        (fun _ => (c.fraction_net s.nets.f (c.dqn_base s.nets.d obs)).2.1) 0 a)
    c.hA

/-- agent.py lines 121-126: `if steps < start_steps or np.random.rand() < epsilon_train`
choose `explore()`, else `exploit(state)`.  Python's `or` short-circuits,
so the random number is only drawn once the warmup is over. -/
def selectAction {T : CTypes} (c : Cfg T) (s : AgentState T) : Fin c.A × AgentState T :=
  if s.steps < c.start_steps then explore c s
  else if c.np_rand s.npIdx < c.epsilon_train then explore c { s with npIdx := s.npIdx + 1 }
  else (exploit c { s with npIdx := s.npIdx + 1 } s.obs, { s with npIdx := s.npIdx + 1 })

/-- agent.py lines 157-160: `learning_steps` is incremented first, then
`if learning_steps % target_update_period == 0: update_target()`; the sync
therefore tests the incremented counter and copies the pre-step online
quantile-net parameters. -/
def syncedNets {T : CTypes} (c : Cfg T) (s : AgentState T) : FQFNets T :=
  if (s.learning_steps + 1) % c.target_update_period = 0 then update_target s.nets
  else s.nets

/-- agent.py line 163: the sampled batch of states. -/
def sampleStates {T : CTypes} (c : Cfg T) (s : AgentState T) : Fin c.B → T.Obs :=
  (c.mem_sample s.mem).1

/-- agent.py line 163: the sampled batch of actions. -/
def sampleActions {T : CTypes} (c : Cfg T) (s : AgentState T) : Fin c.B → Fin c.A :=
  (c.mem_sample s.mem).2.1

/-- agent.py line 163: the sampled batch of (multi-step) rewards. -/
def sampleRewards {T : CTypes} (c : Cfg T) (s : AgentState T) : Fin c.B → ℚ :=
  (c.mem_sample s.mem).2.2.1

/-- agent.py line 163: the sampled batch of next states. -/
def sampleNextStates {T : CTypes} (c : Cfg T) (s : AgentState T) : Fin c.B → T.Obs :=
  (c.mem_sample s.mem).2.2.2.1

/-- agent.py line 163: the sampled batch of done flags (as 0/1 scalars). -/
def sampleDones {T : CTypes} (c : Cfg T) (s : AgentState T) : Fin c.B → ℚ :=
  (c.mem_sample s.mem).2.2.2.2

/-- agent.py line 165: `state_embeddings = dqn_base(states)` on the sampled
batch, inside one learning step. -/
def learnEmbs {T : CTypes} (c : Cfg T) (s : AgentState T) : Fin c.B → T.Emb :=
  fun b => c.dqn_base (syncedNets c s).d (sampleStates c s b)

/-- agent.py line 166: `taus, hat_taus, entropies = fraction_net(state_embeddings)`. -/
def learnFracs {T : CTypes} (c : Cfg T) (s : AgentState T) :
    Fin c.B → (Fin (c.N + 1) → ℚ) × (Fin c.N → ℚ) × ℚ :=
  fun b => c.fraction_net (syncedNets c s).f (learnEmbs c s b)

/-- agent.py lines 168-169: the fraction loss of one learning step. -/
def learnFractionLoss {T : CTypes} (c : Cfg T) (s : AgentState T) : ℚ :=
  calculate_fraction_loss c (syncedNets c s).q (learnEmbs c s)
    (fun b => (learnFracs c s b).1) (fun b => (learnFracs c s b).2.1)
    (sampleActions c s)

/-- agent.py line 171: `entropy_loss = -ent_coef * entropies.mean()`. -/
def learnEntropyLoss {T : CTypes} (c : Cfg T) (s : AgentState T) : ℚ :=
  -c.ent_coef * ((∑ b : Fin c.B, (learnFracs c s b).2.2) / (c.B : ℚ))

/-- agent.py lines 173-175: the quantile loss of one learning step (note it
reads the post-sync target parameters). -/
def learnQuantileLoss {T : CTypes} (c : Cfg T) (s : AgentState T) : ℚ :=
  calculate_quantile_loss c (syncedNets c s) (learnEmbs c s)
    (fun b => (learnFracs c s b).1) (fun b => (learnFracs c s b).2.1)
    (sampleActions c s) (sampleRewards c s) (sampleNextStates c s) (sampleDones c s)

/-- agent.py `learn` (lines 156-178): increment `learning_steps`,
conditionally sync the target, sample a batch, compute both losses, then
`update_params(fraction_optim, fraction_loss + entropy_loss)` followed by
`update_params(quantile_optim, quantile_loss + entropy_loss)`: the entropy
bonus is added into each of the two losses separately, each optimizer steps
only its own parameter subset (`update_params` in fqf/utils.py is not under
src/ and is modelled from the spec as: back-propagate the given loss and
step the given optimizer only).  Logging writes (lines 180-200) mutate no
agent state and are dropped. -/
def learn {T : CTypes} (c : Cfg T) (s : AgentState T) : AgentState T :=
  { s with
    learning_steps := s.learning_steps + 1,
    nets :=
      { d := (c.qstep ((syncedNets c s).d, (syncedNets c s).q)
          (learnQuantileLoss c s + learnEntropyLoss c s)).1,
        f := c.fstep (syncedNets c s).f (learnFractionLoss c s + learnEntropyLoss c s),
        q := (c.qstep ((syncedNets c s).d, (syncedNets c s).q)
          (learnQuantileLoss c s + learnEntropyLoss c s)).2,
        t := (syncedNets c s).t } }

/-- agent.py lines 292-295 (inside `evaluate`): draw `np.random.rand()`,
with probability `epsilon_eval` call `explore()` (which samples the
TRAINING environment's action space), else `exploit(state)`. -/
def evalAction {T : CTypes} (c : Cfg T) (s : AgentState T) (obs : T.Obs) :
    Fin c.A × AgentState T :=
  if c.np_rand s.npIdx < c.epsilon_eval then explore c { s with npIdx := s.npIdx + 1 }
  else (exploit c { s with npIdx := s.npIdx + 1 } obs, { s with npIdx := s.npIdx + 1 })

/-- agent.py line 296: one iteration of the inner evaluation loop — select
the evaluation action and step the TEST environment with it, returning the
new state, next observation, reward and done flag.  (The episode reward is
only logged and is not part of the agent state.) -/
def evalStep {T : CTypes} (c : Cfg T) (s : AgentState T) (obs : T.Obs) :
    AgentState T × T.Obs × ℚ × Bool :=
  ({ (evalAction c s obs).2 with
      testEnvS := (c.test_env_step (evalAction c s obs).2.testEnvS (evalAction c s obs).1).1 },
    (c.test_env_step (evalAction c s obs).2.testEnvS (evalAction c s obs).1).2.1,
    (c.test_env_step (evalAction c s obs).2.testEnvS (evalAction c s obs).1).2.2.1,
    (c.test_env_step (evalAction c s obs).2.testEnvS (evalAction c s obs).1).2.2.2)

/-- The fueled `while not done` loop of one evaluation episode
(agent.py lines 291-298); `none` when the fuel runs out mid-episode. -/
def evalLoop {T : CTypes} (c : Cfg T) : ℕ → AgentState T → T.Obs → Option (AgentState T)
  | 0, _, _ => none
  | fuel + 1, s, obs =>
    if (evalStep c s obs).2.2.2 then some (evalStep c s obs).1
    else evalLoop c fuel (evalStep c s obs).1 (evalStep c s obs).2.1

/-- The outer `for i in range(episodes)` loop of `evaluate`
(agent.py lines 287-299): reset the test environment and run one episode,
a fixed number of times. -/
def evalEpisodes {T : CTypes} (c : Cfg T) (fuel : ℕ) :
    ℕ → AgentState T → Option (AgentState T)
  | 0, s => some s
  | k + 1, s =>
    match evalLoop c fuel
        { s with testEnvS := (c.test_env_reset s.testEnvS).1 }
        (c.test_env_reset s.testEnvS).2 with
    | none => none
    | some s1 => evalEpisodes c fuel k s1

/-- agent.py `evaluate` (lines 283-309): five evaluation episodes; the
mean/std return statistics are only logged and do not feed back into the
agent state. -/
def evaluate {T : CTypes} (c : Cfg T) (fuel : ℕ) (s : AgentState T) :
    Option (AgentState T) :=
  evalEpisodes c fuel 5 s

/-- agent.py lines 128-129 (inside the loop body): step the training
environment with the selected action and increment `steps`. -/
def postStepState {T : CTypes} (c : Cfg T) (s : AgentState T) : AgentState T :=
  { (selectAction c s).2 with
    envS := (c.env_step (selectAction c s).2.envS (selectAction c s).1).1,
    steps := (selectAction c s).2.steps + 1 }

/-- agent.py lines 133-134: `memory.append(state, action, reward, next_state, done)`. -/
def postAppendState {T : CTypes} (c : Cfg T) (s : AgentState T) : AgentState T :=
  { postStepState c s with
    mem := c.mem_append (postStepState c s).mem (postStepState c s).obs
      (selectAction c s).1
      (c.env_step (selectAction c s).2.envS (selectAction c s).1).2.2.1
      (c.env_step (selectAction c s).2.envS (selectAction c s).1).2.1
      (c.env_step (selectAction c s).2.envS (selectAction c s).1).2.2.2 }

/-- agent.py lines 136-137: `if self.is_update(): self.learn()`. -/
def postLearnState {T : CTypes} (c : Cfg T) (s : AgentState T) : AgentState T :=
  if is_update c (postAppendState c s) then learn c (postAppendState c s)
  else postAppendState c s

/-- The body of the `while not done` training loop (agent.py lines
121-143): select an action, step the training environment, increment
`steps`, append the transition, learn iff `is_update()`, evaluate (and
checkpoint — pure file I/O, dropped) iff `steps % eval_interval == 0`,
then move to the next observation.  Returns the new state and the done
flag; `none` if evaluation fuel runs out. -/
def trainStep {T : CTypes} (c : Cfg T) (efuel : ℕ) (s : AgentState T) :
    Option (AgentState T × Bool) :=
  (if (postLearnState c s).steps % c.eval_interval = 0 then evaluate c efuel (postLearnState c s)
   else some (postLearnState c s)).map
    (fun s' =>
      ({ s' with obs := (c.env_step (selectAction c s).2.envS (selectAction c s).1).2.1 },
        (c.env_step (selectAction c s).2.envS (selectAction c s).1).2.2.2))

/-- The fueled `while not done` training loop (agent.py lines 121-143). -/
def episodeLoop {T : CTypes} (c : Cfg T) (efuel : ℕ) :
    ℕ → AgentState T → Option (AgentState T)
  | 0, _ => none
  | fuel + 1, s =>
    match trainStep c efuel s with
    | none => none
    | some sd => if sd.2 then some sd.1 else episodeLoop c efuel fuel sd.1

/-- agent.py `train_episode` (lines 114-154): increment the episode
counter, reset the training environment, and run the episode loop to
completion (the trailing reward logging mutates no agent state). -/
def train_episode {T : CTypes} (c : Cfg T) (efuel fuel : ℕ) (s : AgentState T) :
    Option (AgentState T) :=
  episodeLoop c efuel fuel
    { s with
      episodes := s.episodes + 1,
      envS := (c.env_reset s.envS).1,
      obs := (c.env_reset s.envS).2 }

/-- agent.py `run` (lines 85-89), fueled by a bound on the number of
episodes: `while True: train_episode(); if steps > num_steps: break` — the
budget check happens only AFTER `train_episode` returns. -/
def run {T : CTypes} (c : Cfg T) (efuel fuel : ℕ) :
    ℕ → AgentState T → Option (AgentState T)
  | 0, _ => none
  | n + 1, s =>
    match train_episode c efuel fuel s with
    | none => none
    | some s1 => if c.num_steps < s1.steps then some s1 else run c efuel fuel n s1

/-- Whole-episode iteration: `k` complete calls of `train_episode` chained
through `Option.bind`; used to state that `run` only ever stops at an
episode boundary. -/
def episodeIter {T : CTypes} (c : Cfg T) (efuel fuel : ℕ) :
    ℕ → AgentState T → Option (AgentState T)
  | 0, s => some s
  | k + 1, s => (train_episode c efuel fuel s).bind (episodeIter c efuel fuel k)

/-- Concrete carrier types for witnesses and counterexamples: Boolean
observations and embeddings, trivial parameter containers. -/
@[reducible] def Tconc : CTypes :=
  { Obs := Bool, Emb := Bool, F := Unit, P := Unit, D := Unit, Mem := Unit, EnvS := Unit }

/-- Concrete fraction boundaries `0 < 1/2 < 1`. -/
def tausC : Fin 3 → ℚ := fun i => if i.1 = 0 then 0 else if i.1 = 1 then 1 / 2 else 1

/-- Concrete midpoints `1/4, 3/4`. -/
def hatLowC : Fin 2 → ℚ := fun i => if i.1 = 0 then 1 / 4 else 3 / 4

/-- Concrete alternative midpoints `1/8, 7/8`, proposed for the other
embedding value. -/
def hatHighC : Fin 2 → ℚ := fun i => if i.1 = 0 then 1 / 8 else 7 / 8

/-- Concrete configuration: batch 1, two fractions, one action; the
encoder is the identity on Booleans, the fraction proposer distinguishes
the two embeddings, the quantile network returns the fraction level on
embedding `true` and `0` on embedding `false`; the environment terminates
immediately; all random streams are constant. -/
def cX : Cfg Tconc :=
  { B := 1, N := 2, A := 1, hA := Nat.one_pos,
    dqn_base := fun _ o => o,
    fraction_net := fun _ e => if (e : Bool) then (tausC, hatHighC, 0) else (tausC, hatLowC, 0),
    quantile_apply := fun _ e tau _ => if (e : Bool) then tau else 0,
    fstep := fun fp _ => fp,
    qstep := fun dq _ => dq,
    mem_append := fun m _ _ _ _ _ => m,
    mem_sample := fun _ =>
      (fun _ => false, fun _ => ⟨0, Nat.one_pos⟩, fun _ => -(1 / 4), fun _ => true, fun _ => 0),
    env_reset := fun e => (e, false),
    env_step := fun e _ => (e, false, 0, true),
    env_sample := fun _ => ⟨0, Nat.one_pos⟩,
    test_env_reset := fun e => (e, false),
    test_env_step := fun e _ => (e, false, 0, true),
    test_env_sample := fun _ => ⟨0, Nat.one_pos⟩,
    np_rand := fun _ => 0,
    ent_coef := 1, kappa := 1, gamma := 1, multi_step := 1,
    epsilon_train := 0, epsilon_eval := 0,
    num_steps := 0, update_period := 4, target_update_period := 2,
    start_steps := 100, eval_interval := 1000 }

/-- Concrete trivial parameter containers. -/
def netsU : FQFNets Tconc := ⟨(), (), (), ()⟩

/-- Concrete initial agent state. -/
def sInit : AgentState Tconc :=
  { steps := 0, learning_steps := 0, episodes := 0, nets := netsU, mem := (),
    envS := (), testEnvS := (), obs := false, npIdx := 0, envIdx := 0, testIdx := 0 }

/-- Concrete post-warmup agent state. -/
def sHigh : AgentState Tconc := { sInit with steps := 200 }

/-- Concrete training-loop-body output state: one step taken, episode
ended. -/
def sStep : AgentState Tconc := { sInit with steps := 1, envIdx := 1 }

/-- Concrete episode output state: as `sStep` with the episode counter
incremented by `train_episode`. -/
def sEp : AgentState Tconc := { sInit with steps := 1, envIdx := 1, episodes := 1 }

/-- Concrete configuration variant with `epsilon_train = 1`. -/
def cE1 : Cfg Tconc := { cX with epsilon_train := 1 }

/-- Concrete configuration variant with `epsilon_eval = 1`. -/
def cEv : Cfg Tconc := { cX with epsilon_eval := 1 }

/-- Concrete carrier types with rational quantile-net parameters, to
exhibit a drifting online network against a frozen target. -/
@[reducible] def Tq : CTypes :=
  { Obs := Bool, Emb := Bool, F := Unit, P := ℚ, D := Unit, Mem := Unit, EnvS := Unit }

/-- Concrete configuration over `Tq`: each quantile-optimizer step moves
the online quantile-net parameter by one. -/
def cQ : Cfg Tq :=
  { B := 1, N := 2, A := 1, hA := Nat.one_pos,
    dqn_base := fun _ o => o,
    fraction_net := fun _ e => if (e : Bool) then (tausC, hatHighC, 0) else (tausC, hatLowC, 0),
    quantile_apply := fun p e tau _ => if (e : Bool) then (p : ℚ) * tau else 0,
    fstep := fun fp _ => fp,
    qstep := fun dq _ => (dq.1, (dq.2 : ℚ) + 1),
    mem_append := fun m _ _ _ _ _ => m,
    mem_sample := fun _ =>
      (fun _ => false, fun _ => ⟨0, Nat.one_pos⟩, fun _ => -(1 / 4), fun _ => true, fun _ => 0),
    env_reset := fun e => (e, false),
    env_step := fun e _ => (e, false, 0, true),
    env_sample := fun _ => ⟨0, Nat.one_pos⟩,
    test_env_reset := fun e => (e, false),
    test_env_step := fun e _ => (e, false, 0, true),
    test_env_sample := fun _ => ⟨0, Nat.one_pos⟩,
    np_rand := fun _ => 0,
    ent_coef := 1, kappa := 1, gamma := 1, multi_step := 1,
    epsilon_train := 0, epsilon_eval := 0,
    num_steps := 0, update_period := 4, target_update_period := 2,
    start_steps := 100, eval_interval := 1000 }

/-- Concrete parameter containers over `Tq` with distinct online and
target quantile parameters. -/
def mQ : FQFNets Tq := ⟨(), (), (5 : ℚ), (7 : ℚ)⟩

/-- Concrete agent state over `Tq` whose target equals its online
quantile parameters. -/
def sQ : AgentState Tq :=
  { steps := 0, learning_steps := 0, episodes := 0, nets := ⟨(), (), (0 : ℚ), (0 : ℚ)⟩, mem := (),
    envS := (), testEnvS := (), obs := false, npIdx := 0, envIdx := 0, testIdx := 0 }

/-- Sum-of-sums reordering helper for the fraction-loss formula. -/
theorem sum_rotate3 {n m k : ℕ} (f : Fin n → Fin m → Fin k → ℚ) :
    (∑ i : Fin n, ∑ a : Fin m, ∑ b : Fin k, f i a b)
      = ∑ b : Fin k, ∑ i : Fin n, ∑ a : Fin m, f i a b :=
  calc (∑ i : Fin n, ∑ a : Fin m, ∑ b : Fin k, f i a b)
      = ∑ i : Fin n, ∑ b : Fin k, ∑ a : Fin m, f i a b :=
        Finset.sum_congr rfl (fun _ _ => Finset.sum_comm)
    _ = ∑ b : Fin k, ∑ i : Fin n, ∑ a : Fin m, f i a b := Finset.sum_comm

/-- C6: for every state-embedding batch and fraction set, `calculate_q`
returns per batch element and action the Riemann-sum expectation
`sum_i (tau_{i+1} - tau_i) * quantile_value(hat_tau_i, action)`; the
output is a `[batch_size, num_actions]` family by its type
`Fin B → Fin c.A → ℚ`, mirroring the source's shape assertion. -/
theorem C6_calculate_q_riemann_sum {T : CTypes} (c : Cfg T) {B : ℕ} (qp : T.P)
    (embs : Fin B → T.Emb) (taus : Fin B → Fin (c.N + 1) → ℚ)
    (hat_taus : Fin B → Fin c.N → ℚ) (b : Fin B) (a : Fin c.A) :
    calculate_q c qp embs taus hat_taus b a
      = ∑ i : Fin c.N,
          (taus b i.succ - taus b i.castSucc) * c.quantile_apply qp (embs b) (hat_taus b i) a :=
  rfl

/-- C9: `calculate_fraction_loss` is independent of its `actions`
argument — the placement signal is summed over all actions (the gather at
the sampled actions is commented out in the source), so any two action
batches give the same loss. -/
theorem C9_fraction_loss_ignores_actions {T : CTypes} (c : Cfg T) (qp : T.P)
    (embs : Fin c.B → T.Emb) (taus : Fin c.B → Fin (c.N + 1) → ℚ)
    (hat_taus : Fin c.B → Fin c.N → ℚ) (acts1 acts2 : Fin c.B → Fin c.A) :
    calculate_fraction_loss c qp embs taus hat_taus acts1
      = calculate_fraction_loss c qp embs taus hat_taus acts2 :=
  rfl

/-- C3: the fraction loss is the batch mean, summed over the interior
fractions (and over the action dimension, along which the signal tensor is
kept whole), of the placement signal
`2*Q(tau_i) - Q(hat_tau_i) - Q(hat_tau_{i-1})` multiplied by `tau_i`
itself; and — at the autograd level, where every quantile-net evaluation of
`calculate_gradients_of_tau_s` happens under `torch.no_grad()` (detach) —
no sensitivity flows from the quantile value network into the fraction
loss: its derivative along any quantile-net parameter direction is `0`
whenever the proposed fractions do not themselves depend on that
direction. -/
theorem C3_fraction_loss_formula_and_detached {T : CTypes} (c : Cfg T) (qp : T.P)
    (embs : Fin c.B → T.Emb) (taus : Fin c.B → Fin (c.N + 1) → ℚ)
    (hat_taus : Fin c.B → Fin c.N → ℚ) (actions : Fin c.B → Fin c.A)
    (qnd : T.Emb → Dual → Fin c.A → Dual) (embs_d : Fin c.B → T.Emb)
    (taus_d : Fin c.B → Fin (c.N + 1) → Dual) (hat_d : Fin c.B → Fin c.N → Dual)
    (actions_d : Fin c.B → Fin c.A)
    (h0 : ∀ b i, (taus_d b i).grad = 0) :
    calculate_fraction_loss c qp embs taus hat_taus actions
      = (∑ b : Fin c.B, ∑ i : Fin (c.N - 1), ∑ a : Fin c.A,
          (2 * c.quantile_apply qp (embs b) (taus b (interiorIdx i)) a
            - c.quantile_apply qp (embs b) (hat_taus b (hatUpperIdx i)) a
            - c.quantile_apply qp (embs b) (hat_taus b (hatLowerIdx i)) a)
            * taus b (interiorIdx i)) / (c.B : ℚ)
    ∧ (calculate_fraction_loss_ad c qnd embs_d taus_d hat_d actions_d).grad = 0 := by
  constructor
  · simp only [calculate_fraction_loss, calculate_gradients_of_tau_s, quantile_net,
      ← Finset.sum_div]
    rw [sum_rotate3]
  · simp [calculate_fraction_loss_ad, calculate_gradients_of_tau_s_ad, dsum,
      Dual.mul, Dual.sub, Dual.scale, Dual.detach, h0]

/-- C1 (amended): in the Bellman target of `calculate_quantile_loss`, a
fresh fraction set is proposed by the online fraction net from the online
next-state embeddings, the next action is the argmax of `calculate_q` on
those next-state fractions, and the target quantile equals
`reward + (1 - done) * gamma^multi_step * next_quantile_value` with the
bootstrap term zeroed when `done` holds — but the target network is
evaluated at the hat_tau levels of the CURRENT sampled states (the
`hat_taus` argument), not at the next state's own `next_hat_taus`. -/
theorem C1_bellman_target_uses_current_hat_taus {T : CTypes} (c : Cfg T)
    (nets : FQFNets T) (hat_taus : Fin c.B → Fin c.N → ℚ) (rewards : Fin c.B → ℚ)
    (next_states : Fin c.B → T.Obs) (dones : Fin c.B → ℚ) (b : Fin c.B) (j : Fin c.N) :
    next_actions c nets.q (nextEmbs c nets.d next_states)
        (nextFracs c nets.f (nextEmbs c nets.d next_states)) b
      = argmaxFin
          (fun a =>
            calculate_q c nets.q (nextEmbs c nets.d next_states)
              (fun b' => (c.fraction_net nets.f (nextEmbs c nets.d next_states b')).1)
              (fun b' => (c.fraction_net nets.f (nextEmbs c nets.d next_states b')).2.1) b a)
          c.hA
    ∧ target_sa_quantiles c nets hat_taus rewards next_states dones b j
        = rewards b + (1 - dones b) * c.gamma ^ c.multi_step
            * c.quantile_apply nets.t (nextEmbs c nets.d next_states b) (hat_taus b j)
                (next_actions c nets.q (nextEmbs c nets.d next_states)
                  (nextFracs c nets.f (nextEmbs c nets.d next_states)) b)
    ∧ (dones b = 1 →
        target_sa_quantiles c nets hat_taus rewards next_states dones b j = rewards b) := by
  refine ⟨rfl, rfl, fun hd => ?_⟩
  simp [target_sa_quantiles, hd]

/-- C1 counterexample: a concrete batch where the Bellman target the code
computes (target net at the CURRENT states' hat_taus) differs from the
claim's description (target net at the next state's own hat_taus). -/
theorem C1_counterexample :
    target_sa_quantiles cX netsU (fun _ => hatLowC) (fun _ => 0) (fun _ => true)
        (fun _ => 0) ⟨0, Nat.one_pos⟩ ⟨0, Nat.two_pos⟩
      ≠ target_sa_quantiles_specC1 cX netsU (fun _ => 0) (fun _ => true)
        (fun _ => 0) ⟨0, Nat.one_pos⟩ ⟨0, Nat.two_pos⟩ := by
  have h1 : target_sa_quantiles cX netsU (fun _ => hatLowC) (fun _ => 0) (fun _ => true)
      (fun _ => 0) ⟨0, Nat.one_pos⟩ ⟨0, Nat.two_pos⟩ = 1 / 4 := by
    simp [target_sa_quantiles, quantile_net, nextEmbs, nextFracs, next_actions, cX, netsU,
      hatLowC, hatHighC, tausC]
  have h2 : target_sa_quantiles_specC1 cX netsU (fun _ => 0) (fun _ => true)
      (fun _ => 0) ⟨0, Nat.one_pos⟩ ⟨0, Nat.two_pos⟩ = 1 / 8 := by
    simp [target_sa_quantiles_specC1, quantile_net, nextEmbs, nextFracs, next_actions, cX,
      netsU, hatLowC, hatHighC, tausC]
  rw [h1, h2]
  norm_num

/-- C2 (amended): the quantile regression loss aggregates the
`[batch, N, N]` TD-error tensor (dimension 1 indexed by the target
quantile `j`, dimension 2 by the current quantile `i`) by weighting each
entry's Huber loss by `|hat_tau_j - 1{TD_error < 0}|` — the fraction level
indexing the TARGET-quantile dimension — divided by `kappa`, summing over
the CURRENT-quantile dimension, and averaging over the target-quantile
dimension and the batch. -/
theorem C2_quantile_huber_weights_target_dim {T : CTypes} (c : Cfg T)
    (nets : FQFNets T) (embs : Fin c.B → T.Emb) (taus : Fin c.B → Fin (c.N + 1) → ℚ)
    (hat_taus : Fin c.B → Fin c.N → ℚ) (actions : Fin c.B → Fin c.A)
    (rewards : Fin c.B → ℚ) (next_states : Fin c.B → T.Obs) (dones : Fin c.B → ℚ) :
    calculate_quantile_loss c nets embs taus hat_taus actions rewards next_states dones
      = (∑ b : Fin c.B, ∑ j : Fin c.N, ∑ i : Fin c.N,
          |hat_taus b j -
              (if target_sa_quantiles c nets hat_taus rewards next_states dones b j
                  - current_sa_quantiles c nets.q embs hat_taus actions b i < 0
                then 1 else 0)|
            * huber c.kappa
                (target_sa_quantiles c nets hat_taus rewards next_states dones b j
                  - current_sa_quantiles c nets.q embs hat_taus actions b i) / c.kappa)
          / ((c.B : ℚ) * (c.N : ℚ)) :=
  rfl

/-- C2 counterexample: a concrete batch where the loss the code computes
differs from the aggregation the claim describes (weight indexed by the
current-quantile dimension, sum over the target-quantile dimension,
average over the current-quantile dimension and the batch) applied to the
same TD-error tensor. -/
theorem C2_counterexample :
    calculate_quantile_loss cX netsU (fun _ => false) (fun _ => tausC) (fun _ => hatLowC)
        (fun _ => ⟨0, Nat.one_pos⟩) (fun _ => -(1 / 4)) (fun _ => true) (fun _ => 0)
      ≠ quantile_huber_agg_specC2 cX (fun _ => hatLowC)
          (td_errors
            (target_sa_quantiles cX netsU (fun _ => hatLowC) (fun _ => -(1 / 4))
              (fun _ => true) (fun _ => 0))
            (current_sa_quantiles cX netsU.q (fun _ => false) (fun _ => hatLowC)
              (fun _ => ⟨0, Nat.one_pos⟩))) := by
  have h1 : calculate_quantile_loss cX netsU (fun _ => false) (fun _ => tausC)
      (fun _ => hatLowC) (fun _ => ⟨0, Nat.one_pos⟩) (fun _ => -(1 / 4)) (fun _ => true)
      (fun _ => 0) = 3 / 32 := by
    simp [calculate_quantile_loss, quantile_huber_agg, td_errors, target_sa_quantiles,
      current_sa_quantiles, quantile_net, nextEmbs, nextFracs, next_actions, cX, netsU,
      hatLowC, hatHighC, tausC, huber, Fin.sum_univ_two, Fin.sum_univ_one]
    norm_num [Fin.sum_univ_two, hatLowC, abs_of_nonneg]
  have h2 : quantile_huber_agg_specC2 cX (fun _ => hatLowC)
      (td_errors
        (target_sa_quantiles cX netsU (fun _ => hatLowC) (fun _ => -(1 / 4))
          (fun _ => true) (fun _ => 0))
        (current_sa_quantiles cX netsU.q (fun _ => false) (fun _ => hatLowC)
          (fun _ => ⟨0, Nat.one_pos⟩))) = 1 / 16 := by
    simp [quantile_huber_agg_specC2, td_errors, target_sa_quantiles,
      current_sa_quantiles, quantile_net, nextEmbs, nextFracs, next_actions, cX, netsU,
      hatLowC, hatHighC, tausC, huber, Fin.sum_univ_two, Fin.sum_univ_one]
    norm_num [Fin.sum_univ_two, hatLowC, abs_of_nonneg]
  rw [h1, h2]
  norm_num

/-- Helper: the target container after one `learn`: replaced by the
pre-step online quantile parameters exactly when the incremented
learning-step counter hits the sync period, untouched otherwise. -/
theorem learn_nets_t {T : CTypes} (c : Cfg T) (s : AgentState T) :
    (learn c s).nets.t
      = if (s.learning_steps + 1) % c.target_update_period = 0 then s.nets.q
        else s.nets.t := by
  unfold learn syncedNets update_target
  split <;> rfl

/-- Helper: one `learn` increments the learning-step counter by one. -/
theorem learn_learning_steps {T : CTypes} (c : Cfg T) (s : AgentState T) :
    (learn c s).learning_steps = s.learning_steps + 1 :=
  rfl

/-- Helper: action selection changes no counter relevant to the learning
cadence. -/
theorem selectAction_counters {T : CTypes} (c : Cfg T) (s : AgentState T) :
    ((selectAction c s).2).steps = s.steps
      ∧ ((selectAction c s).2).learning_steps = s.learning_steps := by
  unfold selectAction explore
  split
  · exact ⟨rfl, rfl⟩
  · split
    · exact ⟨rfl, rfl⟩
    · exact ⟨rfl, rfl⟩

/-- Helper: after the environment step and the memory append, the global
step counter has increased by exactly one. -/
theorem postAppend_steps {T : CTypes} (c : Cfg T) (s : AgentState T) :
    (postAppendState c s).steps = s.steps + 1 := by
  show ((selectAction c s).2).steps + 1 = s.steps + 1
  rw [(selectAction_counters c s).1]

/-- Helper: the environment step and the memory append leave the
learning-step counter unchanged. -/
theorem postAppend_learning_steps {T : CTypes} (c : Cfg T) (s : AgentState T) :
    (postAppendState c s).learning_steps = s.learning_steps := by
  show ((selectAction c s).2).learning_steps = s.learning_steps
  exact (selectAction_counters c s).2

/-- Helper: across the conditional learning stage of the loop body, the
learning-step counter increases exactly when `is_update` holds of the
incremented global step counter. -/
theorem postLearn_learning_steps {T : CTypes} (c : Cfg T) (s : AgentState T) :
    (postLearnState c s).learning_steps
      = s.learning_steps
        + (if (s.steps + 1) % c.update_period = 0 ∧ c.start_steps ≤ s.steps + 1
           then 1 else 0) := by
  have hs : is_update c (postAppendState c s) = true
      ↔ ((s.steps + 1) % c.update_period = 0 ∧ c.start_steps ≤ s.steps + 1) := by
    simp [is_update, postAppend_steps]
  unfold postLearnState
  split
  case isTrue hb =>
    rw [if_pos (hs.mp hb), learn_learning_steps, postAppend_learning_steps]
  case isFalse hb =>
    rw [if_neg (fun hc => hb (hs.mpr hc)), Nat.add_zero]
    exact postAppend_learning_steps c s

/-- Helper: the evaluation action draw leaves the learning-step counter
unchanged. -/
theorem evalAction_learning_steps {T : CTypes} (c : Cfg T) (s : AgentState T)
    (obs : T.Obs) : ((evalAction c s obs).2).learning_steps = s.learning_steps := by
  unfold evalAction explore
  split <;> rfl

/-- Helper: one evaluation-loop iteration leaves the learning-step counter
unchanged. -/
theorem evalStep_learning_steps {T : CTypes} (c : Cfg T) (s : AgentState T)
    (obs : T.Obs) : ((evalStep c s obs).1).learning_steps = s.learning_steps := by
  show ((evalAction c s obs).2).learning_steps = s.learning_steps
  exact evalAction_learning_steps c s obs

/-- Helper: a whole evaluation episode leaves the learning-step counter
unchanged. -/
theorem evalLoop_learning_steps {T : CTypes} (c : Cfg T) :
    ∀ (fuel : ℕ) (s : AgentState T) (obs : T.Obs) (s' : AgentState T),
      evalLoop c fuel s obs = some s' → s'.learning_steps = s.learning_steps := by
  intro fuel
  induction fuel with
  | zero => intro s obs s' h; simp [evalLoop] at h
  | succ n ih =>
    intro s obs s' h
    rw [evalLoop] at h
    split at h
    · cases h
      exact evalStep_learning_steps c s obs
    · rw [ih _ _ _ h, evalStep_learning_steps]

/-- Helper: any number of evaluation episodes leaves the learning-step
counter unchanged. -/
theorem evalEpisodes_learning_steps {T : CTypes} (c : Cfg T) (fuel : ℕ) :
    ∀ (k : ℕ) (s s' : AgentState T),
      evalEpisodes c fuel k s = some s' → s'.learning_steps = s.learning_steps := by
  intro k
  induction k with
  | zero => intro s s' h; cases h; rfl
  | succ n ih =>
    intro s s' h
    rw [evalEpisodes] at h
    split at h
    · cases h
    case h_2 s1 hm =>
      have h1 := evalLoop_learning_steps c fuel _ _ _ hm
      rw [ih _ _ h, h1]

/-- Helper: `evaluate` leaves the learning-step counter unchanged. -/
theorem evaluate_learning_steps {T : CTypes} (c : Cfg T) (fuel : ℕ)
    (s s' : AgentState T) (h : evaluate c fuel s = some s') :
    s'.learning_steps = s.learning_steps :=
  evalEpisodes_learning_steps c fuel 5 s s' h

/-- C4: a learning step executes exactly when the incremented global step
counter satisfies `steps % update_period == 0 and steps >= start_steps`
(witnessed by the learning-step counter across the loop body); and inside
one `learn` call: the target is hard-copied from the PRE-step online
quantile parameters exactly when the incremented learning-step counter
hits `target_update_period`, the fraction optimizer is stepped with
`fraction_loss + entropy_loss` touching only the fraction parameters, and
the quantile optimizer is stepped with `quantile_loss + entropy_loss`
touching only the encoder and online quantile parameters — the same
`learnEntropyLoss` value appears in each of the two optimizer inputs
separately, never fused into one joint step. -/
theorem C4_update_cadence_and_learn_order {T : CTypes} (c : Cfg T) (ef : ℕ)
    (s s2 : AgentState T) (d : Bool) (s3 : AgentState T)
    (h : trainStep c ef s = some (s2, d)) :
    s2.learning_steps
        = s.learning_steps
          + (if (s.steps + 1) % c.update_period = 0 ∧ c.start_steps ≤ s.steps + 1
             then 1 else 0)
    ∧ (learn c s3).nets.f
        = c.fstep (syncedNets c s3).f (learnFractionLoss c s3 + learnEntropyLoss c s3)
    ∧ ((learn c s3).nets.d, (learn c s3).nets.q)
        = c.qstep ((syncedNets c s3).d, (syncedNets c s3).q)
            (learnQuantileLoss c s3 + learnEntropyLoss c s3)
    ∧ (learn c s3).nets.t
        = (if (s3.learning_steps + 1) % c.target_update_period = 0 then s3.nets.q
           else s3.nets.t) := by
  refine ⟨?_, rfl, rfl, learn_nets_t c s3⟩
  unfold trainStep at h
  split at h
  case isTrue hev =>
    rw [Option.map_eq_some'] at h
    obtain ⟨s5, h5, hF⟩ := h
    cases hF
    show s5.learning_steps = _
    rw [evaluate_learning_steps c ef _ _ h5, postLearn_learning_steps]
  case isFalse hev =>
    simp only [Option.map_some'] at h
    cases h
    show (postLearnState c s).learning_steps = _
    exact postLearn_learning_steps c s

/-- C5: after every `update_target` the target parameters equal the online
quantile-net parameters at that instant; a `learn` step off the sync
cadence leaves them untouched; and along any run of `learn` steps starting
from a synced state the target parameters are always a verbatim snapshot
of the online quantile parameters at some earlier learning step (gradient
steps never touch them: `grad_false` freezes the target and only the full
replacement in `update_target` writes it). -/
theorem C5_target_sync_snapshot {T : CTypes} (c : Cfg T) (m : FQFNets T)
    (s : AgentState T) (n : ℕ) (h : s.nets.t = s.nets.q) :
    (update_target m).t = m.q
    ∧ ((s.learning_steps + 1) % c.target_update_period ≠ 0 →
        (learn c s).nets.t = s.nets.t)
    ∧ ∃ k ≤ n, ((learn c)^[n] s).nets.t = ((learn c)^[k] s).nets.q := by
  refine ⟨rfl, fun hns => by rw [learn_nets_t, if_neg hns], ?_⟩
  induction n with
  | zero => exact ⟨0, Nat.le_refl 0, h⟩
  | succ n ih =>
    obtain ⟨k, hk, hkt⟩ := ih
    rw [Function.iterate_succ_apply', learn_nets_t]
    by_cases hc : (((learn c)^[n] s).learning_steps + 1) % c.target_update_period = 0
    · exact ⟨n, Nat.le_succ n, by rw [if_pos hc]⟩
    · exact ⟨k, Nat.le_trans hk (Nat.le_succ n), by rw [if_neg hc]; exact hkt⟩

/-- C7: while the global step counter is below `start_steps` the agent
always takes the random action (a draw from the training environment's
action space); past warmup with `epsilon_train = 0` the selected action is
always `exploit` — the greedy argmax of `calculate_q` — and it is
deterministic: replacing both random streams changes nothing; with
`epsilon_train = 1` the action is always the random draw, regardless of
the network parameters (hence of the computed action values). -/
theorem C7_epsilon_greedy_boundaries {T : CTypes} (c : Cfg T) (s : AgentState T)
    (r2 : ℕ → ℚ) (g2 : ℕ → Fin c.A) (nets2 : FQFNets T) :
    (s.steps < c.start_steps → (selectAction c s).1 = c.env_sample s.envIdx)
    ∧ (c.start_steps ≤ s.steps → c.epsilon_train = 0 → 0 ≤ c.np_rand s.npIdx →
        (selectAction c s).1 = exploit c s s.obs)
    ∧ (c.start_steps ≤ s.steps → c.epsilon_train = 0 → 0 ≤ c.np_rand s.npIdx →
        0 ≤ r2 s.npIdx →
        (selectAction { c with np_rand := r2, env_sample := g2 } s).1
          = (selectAction c s).1)
    ∧ (c.epsilon_train = 1 → c.np_rand s.npIdx < 1 →
        (selectAction c s).1 = c.env_sample s.envIdx
          ∧ (selectAction c { s with nets := nets2 }).1 = (selectAction c s).1)
    ∧ exploit c s s.obs
        = argmaxFin
            (fun a =>
              calculate_q c s.nets.q (fun _ : Fin 1 => c.dqn_base s.nets.d s.obs)
                (fun _ => (c.fraction_net s.nets.f (c.dqn_base s.nets.d s.obs)).1)
                (fun _ => (c.fraction_net s.nets.f (c.dqn_base s.nets.d s.obs)).2.1) 0 a)
            c.hA := by
  refine ⟨fun hw => ?_, fun hss he hr => ?_, fun hss he hr hr2 => ?_,
    fun he hr => ⟨?_, ?_⟩, rfl⟩
  · unfold selectAction
    rw [if_pos hw]
    rfl
  · unfold selectAction
    rw [if_neg (not_lt.mpr hss), he, if_neg (not_lt.mpr hr)]
    rfl
  · have hL : (selectAction { c with np_rand := r2, env_sample := g2 } s).1
        = exploit c s s.obs := by
      unfold selectAction
      rw [if_neg (not_lt.mpr hss), he, if_neg (not_lt.mpr hr2)]
      rfl
    have hR : (selectAction c s).1 = exploit c s s.obs := by
      unfold selectAction
      rw [if_neg (not_lt.mpr hss), he, if_neg (not_lt.mpr hr)]
      rfl
    rw [hL, hR]
  · by_cases hw : s.steps < c.start_steps
    · unfold selectAction
      rw [if_pos hw]
      rfl
    · unfold selectAction
      rw [if_neg hw, he, if_pos hr]
      rfl
  · by_cases hw : s.steps < c.start_steps
    · unfold selectAction
      rw [if_pos hw, if_pos hw]
      rfl
    · unfold selectAction
      rw [if_neg hw, if_neg hw, he, if_pos hr, if_pos hr]
      rfl

/-- C8: whenever the fueled training loop `run` returns a state, that
state exceeds the step budget AND is the result of a positive number of
COMPLETE episodes chained from the start state: the exit condition is only
checked after `train_episode` returns, so an in-flight episode always runs
to completion before the loop can exit. -/
theorem C8_run_exits_at_episode_boundaries {T : CTypes} (c : Cfg T)
    (ef f n : ℕ) : ∀ (s s' : AgentState T), run c ef f n s = some s' →
    c.num_steps < s'.steps ∧ ∃ k, 0 < k ∧ episodeIter c ef f k s = some s' := by
  induction n with
  | zero => intro s s' h; simp [run] at h
  | succ n ih =>
    intro s s' h
    rw [run] at h
    split at h
    · cases h
    case h_2 s1 he =>
      split at h
      case isTrue hlt =>
        cases h
        refine ⟨hlt, 1, Nat.one_pos, ?_⟩
        rw [episodeIter, he]
        rfl
      case isFalse hlt =>
        obtain ⟨hlt', k, hk, hiter⟩ := ih s1 s' h
        refine ⟨hlt', k + 1, Nat.succ_pos k, ?_⟩
        rw [episodeIter, he]
        exact hiter

/-- C10: within `evaluate`, when the `epsilon_eval` branch fires the random
action is `explore()`, i.e. a draw from the TRAINING environment's action
space sampler — never from the test environment's sampler (changing the
test sampler cannot change the chosen action) — while the environment being
stepped with that action is the TEST environment. -/
theorem C10_eval_explores_training_action_space {T : CTypes} (c : Cfg T)
    (g : ℕ → Fin c.A) (s : AgentState T) (obs : T.Obs) :
    (c.np_rand s.npIdx < c.epsilon_eval →
        (evalAction c s obs).1 = c.env_sample s.envIdx)
    ∧ (evalAction { c with test_env_sample := g } s obs).1 = (evalAction c s obs).1
    ∧ (evalStep c s obs).1.testEnvS
        = (c.test_env_step s.testEnvS (evalAction c s obs).1).1 := by
  refine ⟨fun h => ?_, ?_, ?_⟩
  · unfold evalAction
    rw [if_pos h]
    rfl
  · unfold evalAction
    by_cases hc : c.np_rand s.npIdx < c.epsilon_eval
    · rw [if_pos hc, if_pos hc]
      rfl
    · rw [if_neg hc, if_neg hc]
      rfl
  · have hT : ((evalAction c s obs).2).testEnvS = s.testEnvS := by
      unfold evalAction explore
      split <;> rfl
    show (c.test_env_step ((evalAction c s obs).2).testEnvS (evalAction c s obs).1).1 = _
    rw [hT]

/-- Witness for C1: at a concrete terminal transition (`done = 1`) the
Bellman target collapses to the reward. -/
theorem C1_witness :
    target_sa_quantiles cX netsU (fun _ => hatLowC) (fun _ => 3) (fun _ => true)
        (fun _ => 1) ⟨0, Nat.one_pos⟩ ⟨0, Nat.two_pos⟩ = 3 :=
  (C1_bellman_target_uses_current_hat_taus cX netsU (fun _ => hatLowC) (fun _ => 3)
      (fun _ => true) (fun _ => 1) ⟨0, Nat.one_pos⟩ ⟨0, Nat.two_pos⟩).2.2 rfl

/-- Witness for C3: at a concrete instance whose quantile network carries a
nonzero parameter sensitivity while the proposed fractions carry none, the
fraction loss has zero sensitivity. -/
theorem C3_witness :
    (calculate_fraction_loss_ad cX (fun _ t _ => ⟨t.val, 5⟩) (fun _ => false)
        (fun _ i => ⟨tausC i, 0⟩) (fun _ i => ⟨hatLowC i, 0⟩)
        (fun _ => ⟨0, Nat.one_pos⟩)).grad = 0 :=
  (C3_fraction_loss_formula_and_detached cX () (fun _ => false) (fun _ => tausC)
      (fun _ => hatLowC) (fun _ => ⟨0, Nat.one_pos⟩) (fun _ t _ => ⟨t.val, 5⟩)
      (fun _ => false) (fun _ i => ⟨tausC i, 0⟩) (fun _ i => ⟨hatLowC i, 0⟩)
      (fun _ => ⟨0, Nat.one_pos⟩) (fun _ _ => rfl)).2

/-- Witness for C4: a concrete warmup-phase loop-body execution (no
learning step fires, the counter stays put), together with the learn-order
facts at the concrete initial state. -/
theorem C4_witness :
    sStep.learning_steps
        = sInit.learning_steps
          + (if (sInit.steps + 1) % cX.update_period = 0 ∧ cX.start_steps ≤ sInit.steps + 1
             then 1 else 0)
    ∧ (learn cX sInit).nets.f
        = cX.fstep (syncedNets cX sInit).f
            (learnFractionLoss cX sInit + learnEntropyLoss cX sInit)
    ∧ ((learn cX sInit).nets.d, (learn cX sInit).nets.q)
        = cX.qstep ((syncedNets cX sInit).d, (syncedNets cX sInit).q)
            (learnQuantileLoss cX sInit + learnEntropyLoss cX sInit)
    ∧ (learn cX sInit).nets.t
        = (if (sInit.learning_steps + 1) % cX.target_update_period = 0 then sInit.nets.q
           else sInit.nets.t) :=
  C4_update_cadence_and_learn_order cX 1 sInit sStep true sInit rfl

/-- Witness for C5: two concrete learning steps with a drifting online
quantile parameter and sync period two; the target ends as a snapshot of
an earlier online parameter state. -/
theorem C5_witness :
    (update_target mQ).t = mQ.q
    ∧ ((sQ.learning_steps + 1) % cQ.target_update_period ≠ 0 →
        (learn cQ sQ).nets.t = sQ.nets.t)
    ∧ ∃ k ≤ 2, ((learn cQ)^[2] sQ).nets.t = ((learn cQ)^[k] sQ).nets.q :=
  C5_target_sync_snapshot cQ mQ sQ 2 rfl

/-- Witness for C7: concrete warmup, greedy and always-random action
selections. -/
theorem C7_witness :
    (selectAction cX sInit).1 = cX.env_sample sInit.envIdx
    ∧ (selectAction cX sHigh).1 = exploit cX sHigh sHigh.obs
    ∧ (selectAction cE1 sHigh).1 = cE1.env_sample sHigh.envIdx :=
  ⟨(C7_epsilon_greedy_boundaries cX sInit (fun _ => 0) (fun _ => ⟨0, Nat.one_pos⟩)
      netsU).1 (by decide),
   (C7_epsilon_greedy_boundaries cX sHigh (fun _ => 0) (fun _ => ⟨0, Nat.one_pos⟩)
      netsU).2.1 (by decide) rfl (by show (0:ℚ) ≤ 0; norm_num),
   ((C7_epsilon_greedy_boundaries cE1 sHigh (fun _ => 0) (fun _ => ⟨0, Nat.one_pos⟩)
      netsU).2.2.2.1 rfl (by show (0:ℚ) < 1; norm_num)).1⟩

/-- Witness for C8: a concrete one-episode run past a zero step budget;
the returned state lies beyond the budget and is a whole-episode image of
the start state. -/
theorem C8_witness :
    cX.num_steps < sEp.steps ∧ ∃ k, 0 < k ∧ episodeIter cX 1 1 k sInit = some sEp :=
  C8_run_exits_at_episode_boundaries cX 1 1 1 sInit sEp rfl

/-- Witness for C10: with `epsilon_eval = 1` the evaluation action is the
training environment's sampler output. -/
theorem C10_witness :
    (evalAction cEv sInit false).1 = cEv.env_sample sInit.envIdx :=
  (C10_eval_explores_training_action_space cEv (fun _ => ⟨0, Nat.one_pos⟩) sInit
      false).1 (by show (0:ℚ) < 1; norm_num)
